import Mathlib

/-!
Verification of the color-math core of the tailwind-color-generator repository.

The repository carries two implementations of palette derivation and
formatting: the in-process one in extension.js (raw integer channel
arithmetic) and the pipe-server one (HSL-based, built on chroma-js).
Both are embedded below over exact rational arithmetic: JavaScript
number operations on this code path are rational-valued except for the
final rounding steps, which are modelled explicitly
(Math.round x = floor (x + 1/2) for the nonnegative values arising
here, Math.floor = floor).  Definitions prefixed with ext- come from
extension.js; definitions prefixed with mcp- come from the pipe-server
file; chroma- definitions model the chroma-js conversions the
pipe-server calls (rgb2hsl, hsl2rgb, clip_rgb, rgb2hex).
-/

attribute [local semireducible] Rat.add Rat.mul Rat.inv Rat.sub Rat.ofScientific

/-- JavaScript Math.round for the nonnegative rational values produced by this
code (round half toward positive infinity). -/
def jround (x : ℚ) : ℤ := ⌊x + 1/2⌋

/-- chroma-js clip_rgb: clamps a channel to [0, 255]. -/
def clip255 (x : ℚ) : ℚ := if x < 0 then 0 else if x > 255 then 255 else x

/-- Value of one hexadecimal digit, case-insensitive (the character class of
the regex in hexToRgb, extension.js line 58). -/
def hexDigitVal (c : Char) : Option ℕ :=
  if '0' ≤ c ∧ c ≤ '9' then some (c.toNat - '0'.toNat)
  else if 'a' ≤ c ∧ c ≤ 'f' then some (c.toNat - 'a'.toNat + 10)
  else if 'A' ≤ c ∧ c ≤ 'F' then some (c.toNat - 'A'.toNat + 10)
  else none

/-- JavaScript Number.prototype.toString(16) for a natural number:
lowercase hexadecimal digits, no padding. -/
def natToHexStr (n : ℕ) : String := (Nat.toDigits 16 n).asString

/-- JavaScript String.prototype.padStart(6, [zero]) as used on hex strings. -/
def padSixZeros (s : String) : String :=
  if 6 ≤ s.length then s else (List.replicate (6 - s.length) '0').asString ++ s

/-- hexToRgb (extension.js lines 57-64): parses an optional leading hash
followed by exactly six case-insensitive hex digits into three 8-bit
channels; any other string yields null.  The same parse also models the
six-digit-hex acceptance of the chroma-js constructor used by the
pipe-server (other chroma input formats - named colors, hsl() strings,
three-digit hex - are outside the scope of the claims). -/
def hexToRgb (s : String) : Option (ℕ × ℕ × ℕ) :=
  let t := match s.toList with
    | '#' :: rest => rest
    | cs => cs
  match t with
  | [c1, c2, c3, c4, c5, c6] => do
    let h1 ← hexDigitVal c1
    let h2 ← hexDigitVal c2
    let h3 ← hexDigitVal c3
    let h4 ← hexDigitVal c4
    let h5 ← hexDigitVal c5
    let h6 ← hexDigitVal c6
    pure (16 * h1 + h2, 16 * h3 + h4, 16 * h5 + h6)
  | _ => none

/-- rgbToHex (extension.js lines 66-68): writes ((1 shl 24) + (r shl 16) +
(g shl 8) + b).toString(16).slice(1).  Faithful on the reachable domain of
its callers, where each channel lies in [0, 255]. -/
def rgbToHex (r g b : ℤ) : String :=
  "#" ++ (natToHexStr (2 ^ 24 + r.toNat * 2 ^ 16 + g.toNat * 2 ^ 8 + b.toNat)).drop 1

/-- interpolateColors (extension.js lines 41-55): channel-wise linear RGB
interpolation; if either color fails to parse it falls back to returning
the first color string unchanged. -/
def interpolateColors (color1 color2 : String) (factor : ℚ) : String :=
  match hexToRgb color1, hexToRgb color2 with
  | some (r1, g1, b1), some (r2, g2, b2) =>
    rgbToHex (jround ((r1 : ℚ) + factor * ((r2 : ℚ) - r1)))
      (jround ((g1 : ℚ) + factor * ((g2 : ℚ) - g1)))
      (jround ((b1 : ℚ) + factor * ((b2 : ℚ) - b1)))
  | _, _ => color1

/-- One gradient stop: a color string and a percentage position. -/
structure Stop where
  color : String
  position : ℚ
deriving DecidableEq, Repr, Inhabited

/-- The fractional index into the seed color list for stop i
(extension.js line 20). -/
def colorIndexQ (steps len i : ℕ) : ℚ :=
  ((i : ℚ) / ((steps : ℚ) - 1)) * ((len : ℚ) - 1)

/-- The body of the loop in generateGradientStops (extension.js lines 18-36):
the i-th stop for the given seed colors and step count.  List indexing uses
getD with an empty default; the indices are in range whenever the list is
nonempty, as floor and ceiling of colorIndexQ lie in [0, len-1]. -/
def stopAt (colors : List String) (steps i : ℕ) : Stop :=
  let ci := colorIndexQ steps colors.length i
  let lower := ⌊ci⌋
  let upper := ⌈ci⌉
  let factor := ci - lower
  { color :=
      if lower = upper then colors.getD lower.toNat ""
      else interpolateColors (colors.getD lower.toNat "") (colors.getD upper.toNat "") factor,
    position := (jround (((i : ℚ) * (100 / ((steps : ℚ) - 1))) * 100) : ℚ) / 100 }

/-- generateGradientStops (extension.js lines 10-39): throws when fewer than
two colors are supplied, otherwise returns the stop list and the direction
tag. -/
def generateGradientStops (colors : List String) (steps : ℕ) (direction : String) :
    Except String (List Stop × String) :=
  if colors.length < 2 then
    .error "At least 2 colors are required for gradient generation"
  else
    .ok ((List.range steps).map (stopAt colors steps), direction)

/-- Tailwind's fixed shade keys (both files declare the same list). -/
def TAILWIND_SHADES : List ℕ := [50, 100, 200, 300, 400, 500, 600, 700, 800, 900, 950]

/-- The base-color number of extension.js generateTailwindPalette (line 112):
parseInt(baseColor.replace(hash, empty), 16).  Modelled for the six-digit
hex domain; parseInt's partial-prefix parsing of other strings is out of
scope of the claims. -/
def extParseColorNum (s : String) : Option ℕ :=
  (hexToRgb s).map fun t => t.1 * 2 ^ 16 + t.2.1 * 2 ^ 8 + t.2.2

/-- One shade of extension.js generateTailwindPalette (lines 114-132).  The
whole 24-bit color number is manipulated as a single scalar.  When the base
color does not parse, JavaScript produces NaN, NaN.toString(16) is the
three-letter string NaN, and padStart(6) left-pads it with three zeros. -/
def extShadeColor (baseColor : String) (shade : ℕ) : String :=
  if shade < 500 then
    match extParseColorNum baseColor with
    | some n =>
      let factor : ℚ := (shade : ℚ) / 500
      let lightness : ℤ := min 255 ⌊(n : ℚ) + (255 - (n : ℚ)) * (1 - factor)⌋
      "#" ++ padSixZeros (natToHexStr lightness.toNat)
    | none => "#000NaN"
  else if 500 < shade then
    match extParseColorNum baseColor with
    | some n =>
      let factor : ℚ := (shade : ℚ) / 500
      let darkness : ℤ := ⌊(n : ℚ) * (1 - (factor - 1) * (0.7 : ℚ))⌋
      "#" ++ padSixZeros (natToHexStr darkness.toNat)
    | none => "#000NaN"
  else baseColor

/-- generateTailwindPalette of extension.js (lines 106-135): name paired with
the shade map, in the fixed shade order. -/
def extGenerateTailwindPalette (baseColor name : String) : String × List (ℕ × String) :=
  (name, TAILWIND_SHADES.map fun sh => (sh, extShadeColor baseColor sh))

/-- chroma-js rgb2hsl on 8-bit channels.  Hue is NaN for achromatic colors
(max = min); NaN is modelled as none.  All other values are exact rationals:
lightness is (max + min) / 2, saturation and hue follow the branch structure
of chroma's rgb2hsl (l below one half selects the first saturation formula;
the channel equal to the maximum is found in r, g, b order). -/
def rgb2hsl (r g b : ℕ) : Option ℚ × ℚ × ℚ :=
  let r' := (r : ℚ) / 255
  let g' := (g : ℚ) / 255
  let b' := (b : ℚ) / 255
  let mx := max r' (max g' b')
  let mn := min r' (min g' b')
  let l := (mx + mn) / 2
  if mx = mn then (none, 0, l)
  else
    let d := mx - mn
    let s := if l < 1/2 then d / (mx + mn) else d / (2 - mx - mn)
    let h0 := if r' = mx then (g' - b') / d
      else if g' = mx then 2 + (b' - r') / d
      else 4 + (r' - g') / d
    let h1 := h0 * 60
    (some (if h1 < 0 then h1 + 360 else h1), s, l)

/-- The sequential wrap-around adjustment chroma's hsl2rgb applies to each
hue offset: add one if negative, then subtract one if above one. -/
def tAdjust (x : ℚ) : ℚ :=
  let y := if x < 0 then x + 1 else x
  if 1 < y then y - 1 else y

/-- One channel of chroma's hsl2rgb (the branch ladder on 6t, 2t, 3t). -/
def hslChannel (t1 t2 x : ℚ) : ℚ :=
  if 6 * x < 1 then t1 + (t2 - t1) * 6 * x
  else if 2 * x < 1 then t2
  else if 3 * x < 2 then t1 + (t2 - t1) * (2/3 - x) * 6
  else t1

/-- chroma-js hsl2rgb for nonzero saturation and a finite hue: returns the
three channels scaled to [0, 255] before rounding. -/
def hslChannels (h s l : ℚ) : ℚ × ℚ × ℚ :=
  let t2 := if l < 1/2 then l * (1 + s) else l + s - l * s
  let t1 := 2 * l - t2
  let hq := h / 360
  (hslChannel t1 t2 (tAdjust (hq + 1/3)) * 255,
   hslChannel t1 t2 (tAdjust hq) * 255,
   hslChannel t1 t2 (tAdjust (hq - 1/3)) * 255)

/-- chroma-js hsl2rgb including its zero-saturation branch and NaN hue
(none) behavior: with zero saturation all channels equal l * 255 and the
hue is never read.  With nonzero saturation and a NaN hue every t3 offset
is NaN, every comparison in the channel ladder (6t below 1, 2t below 1,
3t below 2) is false, and each channel falls through to the final else
t1 = 2l - t2, so the output is the gray at t1. -/
def hsl2rgb (hOpt : Option ℚ) (s l : ℚ) : ℚ × ℚ × ℚ :=
  if s = 0 then (l * 255, l * 255, l * 255)
  else
    match hOpt with
    | none =>
      let t2 := if l < 1/2 then l * (1 + s) else l + s - l * s
      let t1 := 2 * l - t2
      (t1 * 255, t1 * 255, t1 * 255)
    | some h => hslChannels h s l

/-- chroma-js hex output of a channel triple: clip_rgb then Math.round on
each channel, then six lowercase hex digits. -/
def chromaHex (c : ℚ × ℚ × ℚ) : String :=
  "#" ++ padSixZeros (natToHexStr
    ((jround (clip255 c.1)).toNat * 2 ^ 16 + (jround (clip255 c.2.1)).toNat * 2 ^ 8 +
      (jround (clip255 c.2.2)).toNat))

/-- chroma.hsl(h, s, l).hex() for a finite hue argument, as called by the
pipe-server's color-scheme strategies. -/
def chromaHslHex (h s l : ℚ) : String := chromaHex (hsl2rgb (some h) s l)

/-- The lightness the pipe-server's generateTailwindPalette assigns to a
shade (part_000 lines 501-509), as a function of the base color's HSL
lightness l: shades up to 500 brighten toward 0.95, shades above 500 scale
l down by up to 85 percent. -/
def lightF (l : ℚ) (shade : ℕ) : ℚ :=
  if shade ≤ 500 then l + ((0.95 : ℚ) - l) * ((500 - (shade : ℚ)) / 450)
  else l * (1 - ((shade : ℚ) - 500) / 450 * (0.85 : ℚ))

/-- The saturation the pipe-server's generateTailwindPalette assigns to a
shade, as a function of the base color's HSL saturation s: desaturating
with a floor of 0.1 on the light side, boosting with a cap of 1 on the dark
side. -/
def satF (s : ℚ) (shade : ℕ) : ℚ :=
  if shade ≤ 500 then max (0.1 : ℚ) (s * (1 - (500 - (shade : ℚ)) / 450 * (0.7 : ℚ)))
  else min 1 (s * (1 + ((shade : ℚ) - 500) / 450 * (0.2 : ℚ)))

/-- The HSL triple the pipe-server palette passes to chroma.hsl for one
shade (part_000 lines 505 and 510): the base hue unchanged, with the
shade's adjusted saturation and lightness. -/
def mcpShadeHSL (hOpt : Option ℚ) (s l : ℚ) (shade : ℕ) : Option ℚ × ℚ × ℚ :=
  (hOpt, satF s shade, lightF l shade)

/-- The hex color of one shade of the pipe-server palette: chroma.hsl of the
shade's HSL triple, then hex output. -/
def mcpShadeHex (hOpt : Option ℚ) (s l : ℚ) (shade : ℕ) : String :=
  chromaHex (hsl2rgb (mcpShadeHSL hOpt s l shade).1 (mcpShadeHSL hOpt s l shade).2.1
    (mcpShadeHSL hOpt s l shade).2.2)

/-- The pipe-server generateTailwindPalette (part_000 lines 496-517) on
already-parsed 8-bit channels: convert to HSL once, then derive every shade
(500 included, since the source branches on shade at most 500) from the
base hue and the adjusted saturation and lightness. -/
def mcpPaletteRGB (r g b : ℕ) (name : String) : String × List (ℕ × String) :=
  let hsl := rgb2hsl r g b
  (name, TAILWIND_SHADES.map fun sh => (sh, mcpShadeHex hsl.1 hsl.2.1 hsl.2.2 sh))

/-- The pipe-server generateTailwindPalette on a color string: chroma parse
(six-digit hex domain) then shade derivation.  An unparseable base color
makes chroma throw, modelled as none. -/
def mcpGenerateTailwindPalette (baseColor name : String) : Option (String × List (ℕ × String)) :=
  (hexToRgb baseColor).map fun t => mcpPaletteRGB t.1 t.2.1 t.2.2 name

/-- Shade-500 entry of a palette. -/
def shade500 (p : String × List (ℕ × String)) : Option String := p.2.lookup 500

/-- Hue (chroma's hsl.h, none for achromatic) of a hex color string. -/
def hueOfHex (s : String) : Option ℚ :=
  (hexToRgb s).bind fun t => (rgb2hsl t.1 t.2.1 t.2.2).1

/-- Palette name for index i: colorNames[i] with the JavaScript falsy-or
fallback to a generated placeholder (both scheme paths use the same
expression). -/
def nameAt (names : List String) (i : ℕ) : String :=
  let v := names.getD i ""
  if v = "" then "color" ++ toString (i + 1) else v

/-- The pipe-server's strategy table (part_000 lines 668-688): three HSL
seed triples per strategy, none for an unknown strategy key (the lookup
strategies[strategy] is undefined and the call throws). -/
def mcpStrategySeeds (strategy : String) (hue : ℚ) : Option (List (ℚ × ℚ × ℚ)) :=
  if strategy = "complementary" then
    some [(hue, 0.8, 0.6), (hue + 180, 0.8, 0.6), (hue + 90, 0.7, 0.5)]
  else if strategy = "analogous" then
    some [(hue, 0.8, 0.6), (hue + 30, 0.8, 0.6), (hue - 30, 0.8, 0.6)]
  else if strategy = "monochromatic" then
    some [(hue, 0.8, 0.6), (hue, 0.6, 0.5), (hue, 0.9, 0.7)]
  else if strategy = "triadic" then
    some [(hue, 0.8, 0.6), (hue + 120, 0.8, 0.6), (hue + 240, 0.8, 0.6)]
  else none

/-- The pipe-server generate_color_scheme handler (part_000 lines 660-695):
each seed chroma color is rendered to hex and fed into
generateTailwindPalette with the matching name.  The inner option reflects
the re-parse of the seed hex; it is always some, since chromaHslHex emits a
well-formed six-digit hex string. -/
def mcpGenerateColorScheme (strategy : String) (baseHue : ℚ) (colorNames : List String) :
    Option (List (Option (String × List (ℕ × String)))) :=
  (mcpStrategySeeds strategy baseHue).map fun seeds =>
    seeds.enum.map fun p =>
      mcpGenerateTailwindPalette (chromaHslHex p.2.1 p.2.2.1 p.2.2.2) (nameAt colorNames p.1)

/-- The extension.js generate_color_scheme tool (lines 253-272): the
strategy table builds three hsl() strings, but the code then discards them
and feeds the hardcoded hex color 3B82F6 (the line carries the comment
Simplified for now) into its generateTailwindPalette for each of the three
names.  The strategy name only selects whether the lookup succeeds. -/
def extGenerateColorScheme (strategy : String) (colorNames : List String) :
    Option (List (String × List (ℕ × String))) :=
  if strategy = "complementary" ∨ strategy = "analogous" ∨ strategy = "monochromatic" ∨
      strategy = "triadic" then
    some ((List.range 3).map fun i => extGenerateTailwindPalette "#3B82F6" (nameAt colorNames i))
  else none

/-- One emitted css custom-property line (both generateTailwindConfig
copies): two spaces, dashes, name, shade, colon, hex, semicolon. -/
def cssLine (name : String) (sh : ℕ) (hex : String) : String :=
  "  --color-" ++ name ++ "-" ++ toString sh ++ ": " ++ hex ++ ";"

/-- A run of k spaces. -/
def spaces (k : ℕ) : String := (List.replicate k ' ').asString

/-- JSON string token.  Escaping of quotes, backslashes and control
characters inside the string is elided: the palette names and hex values in
scope contain none. -/
def jsonString (s : String) : String := "\"" ++ s ++ "\""

/-- JSON.stringify object layout with a numeric gap: members (already
rendered values) one per line at gap * (depth + 1) spaces, the closing
brace at gap * depth spaces, the empty object compact. -/
def jsonObject (gap depth : ℕ) (members : List (String × String)) : String :=
  if members.isEmpty then "\x7b\x7d"
  else
    "\x7b\n" ++
      String.intercalate ",\n"
        (members.map fun m => spaces (gap * (depth + 1)) ++ jsonString m.1 ++ ": " ++ m.2) ++
      "\n" ++ spaces (gap * depth) ++ "\x7d"

/-- JSON.stringify(colors, null, gap) for the colors object both
generateTailwindConfig copies assemble: palette names to shade maps to hex
strings.  Key order is deterministic in JavaScript: the shade keys are
integer-like and iterate in ascending numeric order (the insertion order of
TAILWIND_SHADES), the names iterate in insertion order. -/
def jsonColors (gap : ℕ) (palettes : List (String × List (ℕ × String))) : String :=
  jsonObject gap 0 (palettes.map fun p =>
    (p.1, jsonObject gap 1 (p.2.map fun e => (toString e.1, jsonString e.2))))

/-- generateTailwindConfig of extension.js (lines 137-163): css as a root
block of custom-property lines separated by newline characters, js as a
module.exports template embedding JSON at gap 8, anything else as JSON at
gap 2. -/
def generateTailwindConfig (palettes : List (String × List (ℕ × String))) (format : String) :
    String :=
  if format = "css" then
    (palettes.foldl (fun acc p =>
      p.2.foldl (fun acc2 e => acc2 ++ cssLine p.1 e.1 e.2 ++ "\n") acc) ":root \x7b\n") ++ "\x7d"
  else if format = "js" then
    "module.exports = \x7b\n  theme: \x7b\n    extend: \x7b\n      colors: " ++
      jsonColors 8 palettes ++ "\n    \x7d\n  \x7d\n\x7d"
  else jsonColors 2 palettes

/-- generateTailwindConfig of the pipe-server (part_000 lines 520-546): the
js and json branches match extension.js, but the css branch's source writes
a doubled backslash before the n, so the output contains the literal
two-character sequence backslash n instead of a newline. -/
def mcpGenerateTailwindConfig (palettes : List (String × List (ℕ × String))) (format : String) :
    String :=
  if format = "css" then
    (palettes.foldl (fun acc p =>
      p.2.foldl (fun acc2 e => acc2 ++ cssLine p.1 e.1 e.2 ++ "\\n") acc) ":root \x7b\\n") ++ "\x7d"
  else if format = "js" then
    "module.exports = \x7b\n  theme: \x7b\n    extend: \x7b\n      colors: " ++
      jsonColors 8 palettes ++ "\n    \x7d\n  \x7d\n\x7d"
  else jsonColors 2 palettes

instance {ε α : Type} [DecidableEq ε] [DecidableEq α] : DecidableEq (Except ε α) :=
  fun a b =>
    match a, b with
    | .ok x, .ok y => if h : x = y then isTrue (by rw [h]) else isFalse (by simp [h])
    | .error x, .error y => if h : x = y then isTrue (by rw [h]) else isFalse (by simp [h])
    | .ok _, .error _ => isFalse (by simp)
    | .error _, .ok _ => isFalse (by simp)

/-- C4: buildGradient on red and blue with three steps and direction to-r
returns exactly the stops at positions 0, 50 and 100, the middle stop being
the channel-wise rounded midpoint blend 800080 (round(255 + 0.5 * (0 - 255))
= 128 = 0x80 for red and blue channels, 0 for green). -/
theorem c4_midpoint_blend :
    generateGradientStops ["#FF0000", "#0000FF"] 3 "to-r" =
      .ok ([⟨"#FF0000", 0⟩, ⟨"#800080", 50⟩, ⟨"#0000FF", 100⟩], "to-r") := by
  decide

/-- C9: the two palette implementations are not equivalent: at base color
3B82F6 the extension.js integer-arithmetic palette yields 0000ff at shade 50
(the scalar lightness computation saturates at 255), while the pipe-server
HSL palette yields eff1f6 there. -/
theorem c9_implementations_diverge :
    (extGenerateTailwindPalette "#3B82F6" "primary").2.lookup 50 = some "#0000ff" ∧
    (mcpGenerateTailwindPalette "#3B82F6" "primary").map (fun p => p.2.lookup 50) =
      some (some "#eff1f6") ∧
    ("#0000ff" : String) ≠ "#eff1f6" := by
  decide

/-- C5: generateGradientStops fails with the insufficient-colors error (the
message at extension.js line 12) whenever fewer than two colors are given,
producing no stops. -/
theorem c5_insufficient_colors (colors : List String) (steps : ℕ) (dir : String)
    (h : colors.length < 2) :
    generateGradientStops colors steps dir =
      .error "At least 2 colors are required for gradient generation" := by
  simp [generateGradientStops, h]

/-- Witness for C5 at a single-color list. -/
theorem c5_insufficient_colors_witness :
    (["#FF0000"] : List String).length < 2 ∧
    generateGradientStops ["#FF0000"] 10 "to-r" =
      .error "At least 2 colors are required for gradient generation" :=
  ⟨by decide, c5_insufficient_colors ["#FF0000"] 10 "to-r" (by decide)⟩

/-- C8: formatting is deterministic: generateTailwindConfig is a pure
function of the palette list and the encoding, so two invocations on the
same inputs are byte-identical.  The embedding fixes the iteration order
because JavaScript object key order is itself deterministic here: the shade
keys are integer-like and enumerate in ascending numeric order (the
insertion order of TAILWIND_SHADES), and the palette names enumerate in
insertion order. -/
theorem c8_format_deterministic (palettes : List (String × List (ℕ × String)))
    (format : String) (h : format = "js" ∨ format = "css" ∨ format = "json") :
    generateTailwindConfig palettes format = generateTailwindConfig palettes format := by
  rfl

/-- Witness for C8 at a concrete palette and the css encoding. -/
theorem c8_format_deterministic_witness :
    ((("css" : String) = "js" ∨ ("css" : String) = "css" ∨ ("css" : String) = "json") ∧
      generateTailwindConfig [("primary", [(50, "#eff6ff")])] "css" =
        generateTailwindConfig [("primary", [(50, "#eff6ff")])] "css") :=
  ⟨Or.inr (Or.inl rfl),
    c8_format_deterministic [("primary", [(50, "#eff6ff")])] "css" (Or.inr (Or.inl rfl))⟩

/-- C1: the extension.js generateTailwindPalette maps shade 500 to exactly
the input base color string, unconditionally (its shade-500 branch writes
the input through).  The pipe-server copy instead recomputes shade 500
through the at-most-500 branch with ratio zero: the saturation floor
max(0.1, s) and the HSL round trip change the color whenever the base
saturation is below 0.1, as at base 807f7f, whose shade 500 comes out
8c7373.  The spec's statement (500 is the unmodified input, not
recomputed) matches the extension.js branch, the sister basicPalette table
and the documented intent; the pipe-server's inclusive branch bound is the
slip. -/
theorem c1_shade500_exact :
    (∀ base name : String, shade500 (extGenerateTailwindPalette base name) = some base) ∧
    (mcpGenerateTailwindPalette "#807f7f" "primary").map shade500 = some (some "#8c7373") ∧
    ("#8c7373" : String) ≠ "#807f7f" := by
  refine ⟨fun base name => ?_, by decide, by decide⟩
  simp [shade500, extGenerateTailwindPalette, TAILWIND_SHADES, List.lookup, extShadeColor]

/-- C6: the pipe-server generate_color_scheme with strategy triadic, base
hue 0 and names a, b, c returns exactly three palettes whose shade-500
colors have hues exactly 0, 120 and 240 degrees (the seed colors are
chroma.hsl(hue + offset, 0.8, 0.6)).  The extension.js scheme tool instead
hardcodes the hex color 3B82F6 for every palette (its source carries the
comment Simplified for now), so all three of its shade-500 entries are that
string, whose hue is 40620/187, about 217 degrees. -/
theorem c6_triadic_hues :
    (mcpGenerateColorScheme "triadic" 0 ["a", "b", "c"]).map (·.length) = some 3 ∧
    (mcpGenerateColorScheme "triadic" 0 ["a", "b", "c"]).map
        (List.map fun p => (p.bind shade500).bind hueOfHex) =
      some [some 0, some 120, some 240] ∧
    (extGenerateColorScheme "triadic" ["a", "b", "c"]).map (List.map shade500) =
      some [some "#3B82F6", some "#3B82F6", some "#3B82F6"] ∧
    hueOfHex "#3B82F6" = some (40620 / 187) := by
  refine ⟨by decide, by decide, by decide, by decide⟩

/-- C7: the extension.js css formatter emits one custom-property line per
(name, shade, hex) entry, newline-separated and wrapped in a root block; at
the palette named primary with shade 50 eff6ff the exact output is shown.
The pipe-server copy's source doubles the backslash, so its output
contains the literal two-character sequence backslash n instead of
newlines: on the same palette it is a single line that never contains a
newline character, so it does not emit the claimed line. -/
theorem c7_css_variables :
    generateTailwindConfig [("primary", [(50, "#eff6ff")])] "css" =
      ":root \x7b\n  --color-primary-50: #eff6ff;\n\x7d" ∧
    mcpGenerateTailwindConfig [("primary", [(50, "#eff6ff")])] "css" =
      ":root \x7b\\n  --color-primary-50: #eff6ff;\\n\x7d" ∧
    ('\n' ∈ (mcpGenerateTailwindConfig [("primary", [(50, "#eff6ff")])] "css").toList) = False := by
  refine ⟨by decide, by decide, by decide⟩

/-- C10: interpolateColors never raises a color-format error: whenever
either argument fails the six-hex-digit parse it returns the first color
string unchanged, and a gradient built from any at-least-two-element color
list, parseable or not, still yields the full list of stops. -/
theorem c10_interpolate_fallback :
    (∀ (c1 c2 : String) (f : ℚ), hexToRgb c1 = none ∨ hexToRgb c2 = none →
      interpolateColors c1 c2 f = c1) ∧
    (∀ (colors : List String) (steps : ℕ) (dir : String), 2 ≤ colors.length →
      ∃ stops, generateGradientStops colors steps dir = .ok (stops, dir) ∧
        stops.length = steps) := by
  constructor
  · intro c1 c2 f h
    rcases h with h | h <;>
      rcases h1 : hexToRgb c1 with _ | ⟨r1, g1, b1⟩ <;>
      rcases h2 : hexToRgb c2 with _ | ⟨r2, g2, b2⟩ <;>
      simp_all [interpolateColors]
  · intro colors steps dir h
    refine ⟨(List.range steps).map (stopAt colors steps), ?_, by simp⟩
    simp [generateGradientStops, Nat.not_lt.mpr h]

/-- Witness for C10: the named color string red fails the hex parse, so
interpolation with it returns it unchanged, and a two-element list of
unparseable colors still yields four stops. -/
theorem c10_interpolate_fallback_witness :
    (hexToRgb "red" = none ∨ hexToRgb "blue" = none) ∧
    interpolateColors "red" "blue" (1/2) = "red" ∧
    (2 ≤ (["red", "blue"] : List String).length) ∧
    (∃ stops, generateGradientStops ["red", "blue"] 4 "to-r" = .ok (stops, "to-r") ∧
      stops.length = 4) :=
  ⟨Or.inl (by decide),
    c10_interpolate_fallback.1 "red" "blue" (1/2) (Or.inl (by decide)),
    by decide,
    c10_interpolate_fallback.2 ["red", "blue"] 4 "to-r" (by decide)⟩

/-- C2 counterexample: the strict lightness chain fails on the code for two
kinds of valid base colors.  At black the base lightness is 0, so every
dark-side lightness is also 0 and shade 500 is not strictly lighter than
shade 950; the computed palette of black has the NaN-hue fall-through
grays on the light side and is constantly black from 500 to 950, so the
shade-500 and shade-950 output colors are even identical.  At fefefe the
base lightness 254/255 exceeds 0.95, so shade 50 (lightness 0.95) is
strictly darker than shade 500, not lighter. -/
theorem c2_lightness_counterexample :
    hexToRgb "#000000" = some (0, 0, 0) ∧
    ¬ lightF (rgb2hsl 0 0 0).2.2 500 > lightF (rgb2hsl 0 0 0).2.2 950 ∧
    (mcpGenerateTailwindPalette "#000000" "primary").map (fun p => p.2.map Prod.snd) =
      some ["#f1f1f1", "#d3d3d3", "#989898", "#616161", "#303030", "#000000", "#000000",
        "#000000", "#000000", "#000000", "#000000"] ∧
    hexToRgb "#fefefe" = some (254, 254, 254) ∧
    ¬ lightF (rgb2hsl 254 254 254).2.2 50 > lightF (rgb2hsl 254 254 254).2.2 500 := by
  refine ⟨by decide, by decide, by decide, by decide, by decide⟩

/-- C2 (amended): for every valid base color whose HSL lightness lies
strictly between 0 and 0.95, the lightness the pipe-server palette assigns
(the value fed to chroma.hsl) is strictly decreasing along the whole shade
scale, in particular shade 50 is strictly lighter than 500 and 500 than
950, and the hue component of every shade's HSL triple is exactly the base
hue.  The bounds are forced by the counterexample: at lightness 0 the dark
side is constantly 0, at lightness above 0.95 the light side increases. -/
theorem c2_lightness_monotone (base : String) (r g b : ℕ)
    (hparse : hexToRgb base = some (r, g, b))
    (h0 : 0 < (rgb2hsl r g b).2.2) (h95 : (rgb2hsl r g b).2.2 < 0.95) :
    List.Chain'
      (fun s1 s2 => lightF (rgb2hsl r g b).2.2 s1 > lightF (rgb2hsl r g b).2.2 s2)
      TAILWIND_SHADES ∧
    lightF (rgb2hsl r g b).2.2 50 > lightF (rgb2hsl r g b).2.2 500 ∧
    lightF (rgb2hsl r g b).2.2 500 > lightF (rgb2hsl r g b).2.2 950 ∧
    ∀ sh ∈ TAILWIND_SHADES,
      (mcpShadeHSL (rgb2hsl r g b).1 (rgb2hsl r g b).2.1 (rgb2hsl r g b).2.2 sh).1 =
        (rgb2hsl r g b).1 := by
  set l := (rgb2hsl r g b).2.2 with hl
  refine ⟨?_, ?_, ?_, fun sh _ => rfl⟩
  · simp only [TAILWIND_SHADES, List.chain'_cons, List.chain'_singleton, and_true]
    refine ⟨?_, ?_, ?_, ?_, ?_, ?_, ?_, ?_, ?_, ?_⟩ <;>
      (norm_num [lightF] at h95 ⊢; linarith)
  · norm_num [lightF] at h95 ⊢; linarith
  · norm_num [lightF] at h95 ⊢; linarith

/-- Witness for C2 at base color 3B82F6, whose HSL lightness is 61/102. -/
theorem c2_lightness_monotone_witness :
    hexToRgb "#3B82F6" = some (59, 130, 246) ∧
    0 < (rgb2hsl 59 130 246).2.2 ∧ (rgb2hsl 59 130 246).2.2 < 0.95 ∧
    (List.Chain'
      (fun s1 s2 => lightF (rgb2hsl 59 130 246).2.2 s1 > lightF (rgb2hsl 59 130 246).2.2 s2)
      TAILWIND_SHADES ∧
    lightF (rgb2hsl 59 130 246).2.2 50 > lightF (rgb2hsl 59 130 246).2.2 500 ∧
    lightF (rgb2hsl 59 130 246).2.2 500 > lightF (rgb2hsl 59 130 246).2.2 950 ∧
    ∀ sh ∈ TAILWIND_SHADES,
      (mcpShadeHSL (rgb2hsl 59 130 246).1 (rgb2hsl 59 130 246).2.1 (rgb2hsl 59 130 246).2.2
        sh).1 = (rgb2hsl 59 130 246).1) :=
  ⟨by decide, by decide, by decide,
    c2_lightness_monotone "#3B82F6" 59 130 246 (by decide) (by decide) (by decide)⟩

/-- The zeroth gradient stop is the first seed color at position 0: the
fractional color index is 0, whose floor and ceiling agree. -/
theorem stopAt_zero (colors : List String) (steps : ℕ) :
    stopAt colors steps 0 = ⟨colors.getD 0 "", 0⟩ := by
  simp [stopAt, colorIndexQ, jround]
  norm_num

/-- The last gradient stop is the last seed color at position 100: the
fractional color index is exactly the integer length minus one. -/
theorem stopAt_last (colors : List String) (steps : ℕ) (hc : 1 ≤ colors.length)
    (hs : 2 ≤ steps) :
    stopAt colors steps (steps - 1) = ⟨colors.getD (colors.length - 1) "", 100⟩ := by
  have hs1 : (1:ℕ) ≤ steps := by omega
  have hd : ((steps : ℚ) - 1) ≠ 0 := by
    have : (2:ℚ) ≤ (steps:ℚ) := by exact_mod_cast hs
    linarith
  have hcast : ((steps - 1 : ℕ) : ℚ) = (steps:ℚ) - 1 := by
    rw [Nat.cast_sub hs1, Nat.cast_one]
  have hlen : ((colors.length - 1 : ℕ) : ℚ) = (colors.length : ℚ) - 1 := by
    rw [Nat.cast_sub hc, Nat.cast_one]
  have hpos : ((steps - 1 : ℕ) : ℚ) * (100 / ((steps:ℚ) - 1)) * 100 = 10000 := by
    rw [hcast]; field_simp; norm_num
  have hci : colorIndexQ steps colors.length (steps - 1) = ((colors.length - 1 : ℕ) : ℚ) := by
    unfold colorIndexQ
    rw [hcast, div_self hd, one_mul, hlen]
  unfold stopAt
  rw [hci, hpos]
  norm_num [jround, Int.floor_natCast, Int.ceil_natCast, Int.toNat_natCast]

/-- Gradient stop positions are strictly increasing in the stop index for
step counts in the schema's range: consecutive raw positions differ by at
least 10000/49 hundredths, which survives the rounding to two decimals. -/
theorem stopAt_position_lt (colors : List String) (steps : ℕ) (hs2 : 2 ≤ steps)
    (hs50 : steps ≤ 50) {i j : ℕ} (hij : i < j) :
    (stopAt colors steps i).position < (stopAt colors steps j).position := by
  have hd0 : (0:ℚ) < (steps:ℚ) - 1 := by
    have : (2:ℚ) ≤ (steps:ℚ) := by exact_mod_cast hs2
    linarith
  have hd49 : (steps:ℚ) - 1 ≤ 49 := by
    have : (steps:ℚ) ≤ 50 := by exact_mod_cast hs50
    linarith
  have key : ∀ k : ℕ, (stopAt colors steps k).position =
      ((⌊10000 * (k:ℚ) / ((steps:ℚ) - 1) + 1/2⌋ : ℤ) : ℚ) / 100 := by
    intro k
    show ((⌊(k:ℚ) * (100 / ((steps:ℚ) - 1)) * 100 + 1/2⌋ : ℤ) : ℚ) / 100 = _
    have harg : (k:ℚ) * (100 / ((steps:ℚ) - 1)) * 100 + 1/2 =
        10000 * (k:ℚ) / ((steps:ℚ) - 1) + 1/2 := by ring
    rw [harg]
  rw [key i, key j]
  have hji : (i:ℚ) + 1 ≤ (j:ℚ) := by exact_mod_cast hij
  have hstep : 10000 * (i:ℚ) / ((steps:ℚ) - 1) + 1/2 + 1 ≤
      10000 * (j:ℚ) / ((steps:ℚ) - 1) + 1/2 := by
    have hnn : (0:ℚ) ≤ (10000 * ((j:ℚ) - (i:ℚ)) - ((steps:ℚ) - 1)) / ((steps:ℚ) - 1) := by
      apply div_nonneg _ (le_of_lt hd0)
      linarith
    have expand : 10000 * (j:ℚ) / ((steps:ℚ) - 1) - 10000 * (i:ℚ) / ((steps:ℚ) - 1) - 1 =
        (10000 * ((j:ℚ) - (i:ℚ)) - ((steps:ℚ) - 1)) / ((steps:ℚ) - 1) := by
      field_simp
      ring
    linarith [expand ▸ hnn]
  have hfl : ⌊10000 * (i:ℚ) / ((steps:ℚ) - 1) + 1/2⌋ <
      ⌊10000 * (j:ℚ) / ((steps:ℚ) - 1) + 1/2⌋ := by
    have h1 : ⌊10000 * (i:ℚ) / ((steps:ℚ) - 1) + 1/2 + 1⌋ =
        ⌊10000 * (i:ℚ) / ((steps:ℚ) - 1) + 1/2⌋ + 1 := Int.floor_add_one _
    have h2 := Int.floor_mono hstep
    omega
  have hflq : ((⌊10000 * (i:ℚ) / ((steps:ℚ) - 1) + 1/2⌋ : ℤ) : ℚ) <
      ((⌊10000 * (j:ℚ) / ((steps:ℚ) - 1) + 1/2⌋ : ℤ) : ℚ) := by exact_mod_cast hfl
  have h100 : (0:ℚ) < 100 := by norm_num
  exact div_lt_div_of_pos_right hflq h100

/-- C3: for at least two seed colors and a step count in [2, 50],
generateGradientStops succeeds with exactly the requested number of stops;
the first stop is the first seed color at position 0, the last stop is the
last seed color at position 100, and the positions are strictly
increasing. -/
theorem c3_gradient_endpoints (colors : List String) (steps : ℕ) (dir : String)
    (hc : 2 ≤ colors.length) (hs2 : 2 ≤ steps) (hs50 : steps ≤ 50) :
    ∃ stops, generateGradientStops colors steps dir = .ok (stops, dir) ∧
      stops.length = steps ∧
      stops[0]? = some ⟨colors.getD 0 "", 0⟩ ∧
      stops[steps - 1]? = some ⟨colors.getD (colors.length - 1) "", 100⟩ ∧
      List.Pairwise (fun a b => a.position < b.position) stops := by
  refine ⟨(List.range steps).map (stopAt colors steps), ?_, by simp, ?_, ?_, ?_⟩
  · simp [generateGradientStops, Nat.not_lt.mpr hc]
  · rw [List.getElem?_map, List.getElem?_range (by omega : 0 < steps)]
    simp [stopAt_zero]
  · rw [List.getElem?_map, List.getElem?_range (by omega : steps - 1 < steps)]
    simp [stopAt_last colors steps (by omega) hs2]
  · rw [List.pairwise_map]
    exact (List.pairwise_lt_range steps).imp
      (fun hij => stopAt_position_lt colors steps hs2 hs50 hij)

/-- Witness for C3 on the red-to-blue three-step gradient. -/
theorem c3_gradient_endpoints_witness :
    2 ≤ (["#FF0000", "#0000FF"] : List String).length ∧ 2 ≤ 3 ∧ 3 ≤ 50 ∧
    (∃ stops, generateGradientStops ["#FF0000", "#0000FF"] 3 "to-r" = .ok (stops, "to-r") ∧
      stops.length = 3 ∧
      stops[0]? = some ⟨(["#FF0000", "#0000FF"] : List String).getD 0 "", 0⟩ ∧
      stops[3 - 1]? = some
        ⟨(["#FF0000", "#0000FF"] : List String).getD
          ((["#FF0000", "#0000FF"] : List String).length - 1) "", 100⟩ ∧
      List.Pairwise (fun a b => a.position < b.position) stops) :=
  ⟨by decide, by decide, by decide,
    c3_gradient_endpoints ["#FF0000", "#0000FF"] 3 "to-r" (by decide) (by decide) (by decide)⟩
